import Mathlib

/-
Shallow embedding of the car-configurator event bridge of
`virtual-studio-web-remove-background`:

* `lib/psBus.ts` — process-wide Pixel-Streaming connection registry
  (`registerPS`, `isPSReady`, connectivity flags driven by transport events).
* `src/app/configurator/page.tsx` — the configurator page's workflow state,
  the inbound `Info` response listener (`handleUEResponse` dispatch), and the
  sequence-selection / render / cancel handlers.

JavaScript-specific conventions used throughout the embedding:

* An optional field `f?: string` is modelled as `Option String`; `none` is
  JavaScript `undefined`.
* The JavaScript expression `a || b` returns `a` when `a` is truthy and `b`
  verbatim otherwise; for string operands the only falsy values are
  `undefined` and `""`, for number operands `undefined` and `0`.  This is
  `jsOr` / `jsOrNat` below.
* A string holding JSON is modelled by the outcome of `JSON.parse` on it
  (`UEData.str raw parsed`): `parsed = none` means the parse throws.
-/

namespace VStudio

/-- JavaScript `a || b` on optional strings: first truthy wins, `""` and
`undefined` are falsy; when `a` is falsy the second operand is returned
verbatim. -/
def jsOr (a b : Option String) : Option String :=
  match a with
  | some s => if s = "" then b else some s
  | none => b

/-- JavaScript `a || b` on optional numbers: `0` and `undefined` are falsy. -/
def jsOrNat (a b : Option Nat) : Option Nat :=
  match a with
  | some n => if n = 0 then b else some n
  | none => b

/-- Truthiness filter for an optional string: keeps only present, non-empty
values (the truthy ones). -/
def jsStr (a : Option String) : Option String :=
  match a with
  | some s => if s = "" then none else some s
  | none => none

/-! ## Connection registry (`lib/psBus.ts`)

The registry is three module-level variables: `globalPixelStreaming`,
`isWebSocketConnected`, `isVideoStreamActive`.  A PixelStreaming handle is
modelled as an opaque `Nat` identity. -/

/-- State of the module-level variables of `lib/psBus.ts`. -/
structure PSBusState where
  globalPixelStreaming : Option Nat := none
  isWebSocketConnected : Bool := false
  isVideoStreamActive : Bool := false
deriving DecidableEq, Repr

/-- Observable side effects performed by `registerPS`, in execution order:
the disconnect attempt on the previous handle (recording whether
`disconnect()` threw — the exception is caught and only logged), the
assignment `globalPixelStreaming = ps`, and the `addEventListener` calls
made for a non-null handle. -/
inductive PSRegisterEffect where
  | disconnectAttempt (h : Nat) (threw : Bool)
  | installed (ps : Option Nat)
  | listenersAttached (h : Nat)
deriving DecidableEq, Repr

/-- Transport-level events for which `registerPS` installs listeners. -/
inductive PSEvent where
  | webRtcConnected
  | webRtcDisconnected
  | videoInitialized
  | videoEncoderAvgQP
deriving DecidableEq, Repr

/-- `registerPS(ps)` from `lib/psBus.ts`.  `disconnectThrew` models whether
the `disconnect()` call on the previous instance throws; the `try/catch`
swallows the error either way.  Both connectivity flags are reset to
`false` in both the non-null and the null branch. -/
def registerPS (st : PSBusState) (ps : Option Nat) (disconnectThrew : Bool) :
    PSBusState × List PSRegisterEffect :=
  let cleanup : List PSRegisterEffect :=
    match st.globalPixelStreaming with
    | some old => if some old ≠ ps then [.disconnectAttempt old disconnectThrew] else []
    | none => []
  match ps with
  | some h =>
    ({ globalPixelStreaming := some h
       isWebSocketConnected := false
       isVideoStreamActive := false },
     cleanup ++ [.installed (some h), .listenersAttached h])
  | none =>
    ({ globalPixelStreaming := none
       isWebSocketConnected := false
       isVideoStreamActive := false },
     cleanup ++ [.installed none])

/-- Effect of one transport event on the registry's connectivity flags, as
installed by the listeners in `registerPS`. -/
def applyPSEvent (st : PSBusState) (e : PSEvent) : PSBusState :=
  match e with
  | .webRtcConnected => { st with isWebSocketConnected := true }
  | .webRtcDisconnected => { st with isWebSocketConnected := false }
  | .videoInitialized => { st with isVideoStreamActive := true }
  | .videoEncoderAvgQP => { st with isVideoStreamActive := true }

/-- Folds a list of transport events over the registry state. -/
def applyPSEvents (es : List PSEvent) (st : PSBusState) : PSBusState :=
  es.foldl applyPSEvent st

/-- `isPSReady()` from `lib/psBus.ts`:
`!!(globalPixelStreaming && isWebSocketConnected)`. -/
def isPSReady (st : PSBusState) : Bool :=
  st.globalPixelStreaming.isSome && st.isWebSocketConnected

/-! ## Configurator page data model (`src/app/configurator/page.tsx`) -/

/-- A captured screenshot (`interface Screenshot`). -/
structure Screenshot where
  id : String
  url : String
  timestamp : Nat
deriving DecidableEq, Repr

/-- A normalized sequence (`interface SequenceInfo`); `category` is kept as a
string — the source casts the raw value with `as 'Interior' | 'Exterior'`
without validating it. -/
structure SequenceInfo where
  id : String
  name : String
  category : String
  duration : Nat
  thumbnail : Option String := none
deriving DecidableEq, Repr

/-- Render-job status (`'queued' | 'rendering' | 'complete' | 'failed'`). -/
inductive RenderStatus where
  | queued
  | rendering
  | complete
  | failed
deriving DecidableEq, Repr

/-- The tracked render job (`interface RenderJob`). -/
structure RenderJob where
  id : String
  sequenceId : String
  status : RenderStatus
  progress : Nat
  downloadUrl : Option String := none
  errorMessage : Option String := none
deriving DecidableEq, Repr

/-- A raw sequence-shaped JSON object, with every competing field-name
schema optional (`interface SequenceData`), plus the scalar fields the
render branches read from parsed payload objects (`jobId`, `progress`,
`downloadUrl`, `errorMessage`) and the screenshot branch's `url`. -/
structure RawSeq where
  sequenceId : Option String := none
  id : Option String := none
  SequenceId : Option String := none
  displayName : Option String := none
  name : Option String := none
  DisplayName : Option String := none
  category : Option String := none
  Category : Option String := none
  duration : Option Nat := none
  Duration : Option Nat := none
  thumbnailPath : Option String := none
  ThumbnailPath : Option String := none
  thumbnail : Option String := none
  jobId : Option String := none
  progress : Option Nat := none
  errorMessage : Option String := none
  url : Option String := none
deriving DecidableEq, Repr

/-- The `downloadUrl` field of a render payload: either a plain string or an
object `{url?: string}`. -/
inductive DUrl where
  | strU (v : String)
  | objU (url : Option String)
deriving DecidableEq, Repr

/-- A parsed JSON object as the handlers see it: its scalar fields, an
optional nested `sequences` array, and an optional `downloadUrl`. -/
structure DataObj where
  fields : RawSeq := {}
  sequences : Option (List RawSeq) := none
  downloadUrl : Option DUrl := none
deriving DecidableEq, Repr

/-- Result of `JSON.parse` on a payload string, restricted to the shapes the
handlers probe for: a JSON object or a JSON array of sequence objects. -/
inductive ParsedData where
  | obj (o : DataObj)
  | arr (xs : List RawSeq)
deriving DecidableEq, Repr

/-- The envelope's `data` field: either a JSON-encoded string — modelled by
its raw text together with the outcome of `JSON.parse` on it (`none` means
the parse throws) — or an already-structured value. -/
inductive UEData where
  | str (raw : String) (parsed : Option ParsedData)
  | val (p : ParsedData)
deriving DecidableEq, Repr

/-- The loosely-typed inbound envelope (`interface UEResponseEvent`); every
field is optional. -/
structure UEResponseEvent where
  ns : Option String := none
  type : Option String := none
  action : Option String := none
  status : Option String := none
  data : Option UEData := none
  sequences : Option (List RawSeq) := none
  isDay : Option Bool := none
  carId : Option String := none
  hex : Option String := none
  value : Option String := none
deriving DecidableEq, Repr

/-- The UI mode (`type ModeType = 'photo' | 'video'`). -/
inductive ModeType where
  | photo
  | video
deriving DecidableEq, Repr

/-- Render settings literal sent by `handleRenderSequence`. -/
structure RenderSettings where
  quality : String
  format : String
  resolutionX : Nat
  resolutionY : Nat
  frameRate : Nat
deriving DecidableEq, Repr

/-- Structured payloads of outbound commands used by the embedded
handlers. -/
inductive CmdData where
  | strD (s : String)
  | seqIds (sequenceIds : List String)
  | renderReq (sequenceIds : List String) (combineToSingleFile : Bool)
      (settings : RenderSettings)
deriving DecidableEq, Repr

/-- An outbound command envelope passed to `ps.emitUIInteraction`. -/
structure Command where
  ns : String
  type : String
  action : String
  value : Option String := none
  carId : Option String := none
  hex : Option String := none
  data : Option CmdData := none
deriving DecidableEq, Repr

/-- The workflow state of `ConfiguratorContent` that the inbound-response
handler and the sequence/render handlers read and write.  `selectedBackground`
holds the id of the current `BackgroundOption`. -/
structure WorkflowState where
  isCarLoaded : Bool := false
  selectedColorId : Option String := none
  selectedWheelId : Option String := none
  selectedBackground : Option String := none
  isDayMode : Bool := true
  screenshots : List Screenshot := []
  sequences : List SequenceInfo := []
  isLoadingSequences : Bool := false
  selectedSequences : List String := []
  isPlaying : Bool := false
  renderJob : Option RenderJob := none
deriving DecidableEq, Repr

/-- Read-only component context captured by the handler closures: the
selected car id, the configured streaming endpoint URL, the UI mode, the
polled readiness flag, and whether `getPS()` returns an instance. -/
structure Ctx where
  carId : String
  webSocketUrl : Option String := none
  mode : ModeType := .photo
  isReady : Bool := false
  psAvail : Bool := false
deriving DecidableEq, Repr

/-! ## Outbound commands built by the page's handlers -/

/-- The `Sequence/StopSequence` command. -/
def stopSequenceCmd : Command :=
  { ns := "Configurator", type := "Sequence", action := "StopSequence" }

/-- The `Sequence/GetSequences` command sent by
`loadSequencesForCurrentLevel`. -/
def getSequencesCmd (carId : String) : Command :=
  { ns := "Configurator", type := "Sequence", action := "GetSequences"
    carId := some carId }

/-- The `System/SetCloudflareURL` command sent (after a 100 ms delay) once a
car load is confirmed. -/
def setCloudflareURLCmd (url carId : String) : Command :=
  { ns := "Configurator", type := "System", action := "SetCloudflareURL"
    value := some url, carId := some carId }

/-- The settings literal in `handleRenderSequence`. -/
def defaultRenderSettings : RenderSettings :=
  { quality := "High", format := "MP4", resolutionX := 1920
    resolutionY := 1080, frameRate := 30 }

/-- The `Render/RenderSequenceList` command sent by `handleRenderSequence`;
`combineToSingleFile` is `selectedSequences.length > 1`. -/
def renderSequenceListCmd (sequenceIds : List String) : Command :=
  { ns := "Configurator", type := "Render", action := "RenderSequenceList"
    data := some (.renderReq sequenceIds (decide (sequenceIds.length > 1))
      defaultRenderSettings) }

/-- `JSON.stringify({jobId})` as built by `handleCancelRender` (the job ids
produced by this page never need JSON string escaping). -/
def jobIdJsonText (jobId : String) : String :=
  "\x7b\"jobId\":\"" ++ jobId ++ "\"\x7d"

/-- The `Render/CancelRender` command: its `data` is the JSON-encoded
*string*, not a structured object. -/
def cancelRenderCmd (jobId : String) : Command :=
  { ns := "Configurator", type := "Render", action := "CancelRender"
    data := some (.strD (jobIdJsonText jobId)) }

/-! ## Payload normalization helpers -/

/-- JavaScript truthiness of the envelope's `data` value: `undefined` and
the empty string are falsy, objects and arrays are truthy. -/
def dataTruthy : Option UEData → Bool
  | none => false
  | some (.str raw _) => raw ≠ ""
  | some (.val _) => true

/-- The working value after the render branches' parse step:
`let parsedData = event.data; if (typeof event.data === 'string') try
{ parsedData = JSON.parse(event.data) } catch { parsedData = event.data }`.
On parse failure the raw string itself is kept. -/
inductive WorkVal where
  | pd (p : ParsedData)
  | rawStr (s : String)
  | absent
deriving DecidableEq, Repr

/-- The parse step shared by the render branches. -/
def parseStep : Option UEData → WorkVal
  | none => .absent
  | some (.val p) => .pd p
  | some (.str _ (some p)) => .pd p
  | some (.str raw none) => .rawStr raw

/-- Truthiness of the working value (`if (parsedData)`). -/
def wvTruthy : WorkVal → Bool
  | .pd _ => true
  | .rawStr s => s ≠ ""
  | .absent => false

/-- `parsedData?.jobId`: only a parsed object can carry it. -/
def wvJobId : WorkVal → Option String
  | .pd (.obj o) => o.fields.jobId
  | _ => none

/-- `parsedData?.sequenceId`. -/
def wvSequenceId : WorkVal → Option String
  | .pd (.obj o) => o.fields.sequenceId
  | _ => none

/-- `parsedData?.progress`. -/
def wvProgress : WorkVal → Option Nat
  | .pd (.obj o) => o.fields.progress
  | _ => none

/-- `parsedData?.errorMessage`. -/
def wvErrorMessage : WorkVal → Option String
  | .pd (.obj o) => o.fields.errorMessage
  | _ => none

/-- `parsedData.downloadUrl`. -/
def wvDownloadUrl : WorkVal → Option DUrl
  | .pd (.obj o) => o.downloadUrl
  | _ => none

/-- `parsedData` in the `GetSequences` branch after a successful parse
(`none` when `event.data` is absent). -/
def parsedOf : Option UEData → Option ParsedData
  | none => none
  | some (.str _ p) => p
  | some (.val p) => some p

/-- `parsedData?.sequences` when it is an array. -/
def pdObjSequences : Option ParsedData → Option (List RawSeq)
  | some (.obj o) => o.sequences
  | _ => none

/-- `parsedData` when it is itself an array. -/
def pdArr : Option ParsedData → Option (List RawSeq)
  | some (.arr xs) => some xs
  | _ => none

/-- The single-sequence-object probe: `parsedData` is an object with a
truthy `sequenceId`. -/
def pdSingleSeq : Option ParsedData → Option RawSeq
  | some (.obj o) => if (jsStr o.fields.sequenceId).isSome then some o.fields else none
  | _ => none

/-- `event.data?.sequences` read off the *unparsed* envelope field: a string
payload has no `sequences` property. -/
def dataObjSequences : Option UEData → Option (List RawSeq)
  | some (.val (.obj o)) => o.sequences
  | _ => none

/-- The fixed-priority probe chain of the `Sequence/GetSequences` branch:
(a) `parsedData.sequences`, (b) `event.sequences`, (c) `parsedData` as an
array, (d) `event.data.sequences`, (e) `parsedData` as a single sequence
object; otherwise the empty list. -/
def pickSequencesData (e : UEResponseEvent) (pd : Option ParsedData) : List RawSeq :=
  match pdObjSequences pd with
  | some xs => xs
  | none =>
    match e.sequences with
    | some xs => xs
    | none =>
      match pdArr pd with
      | some xs => xs
      | none =>
        match dataObjSequences e.data with
        | some xs => xs
        | none =>
          match pdSingleSeq pd with
          | some x => [x]
          | none => []

/-- Field-name normalization of one raw sequence object, exactly the map in
the `GetSequences` branch:
`id = seq.sequenceId || seq.id || seq.SequenceId || 'unknown'`,
`name = seq.displayName || seq.name || seq.DisplayName || seq.sequenceId ||
'Unnamed Sequence'`, `category = seq.category || seq.Category || 'Exterior'`,
`duration = seq.duration || seq.Duration || 10`,
`thumbnail = seq.thumbnailPath || seq.ThumbnailPath || seq.thumbnail`. -/
def normalizeSeq (seq : RawSeq) : SequenceInfo :=
  { id := (jsOr seq.sequenceId (jsOr seq.id (jsOr seq.SequenceId
      (some "unknown")))).getD "unknown"
    name := (jsOr seq.displayName (jsOr seq.name (jsOr seq.DisplayName
      (jsOr seq.sequenceId (some "Unnamed Sequence"))))).getD "Unnamed Sequence"
    category := (jsOr seq.category (jsOr seq.Category (some "Exterior"))).getD "Exterior"
    duration := (jsOrNat seq.duration (jsOrNat seq.Duration (some 10))).getD 10
    thumbnail := jsOr seq.thumbnailPath (jsOr seq.ThumbnailPath seq.thumbnail) }

/-! ## Workflow branch handlers (`handleUEResponse` in page.tsx)

Each handler returns the updated workflow state; side-effecting branches
additionally return the commands they emit as `(delayMs, command)` pairs in
execution order (a `setTimeout` callback runs after everything synchronous,
so deferred commands are appended after immediate ones). -/

/-- `loadSequencesForCurrentLevel`: no-op when not ready; otherwise sets
`isLoadingSequences`, clears `sequences` and requests `GetSequences` (the
loading flag is dropped again when `getPS()` has no instance). -/
def loadSequencesForCurrentLevel (ctx : Ctx) (s : WorkflowState) :
    WorkflowState × List Command :=
  if !ctx.isReady then (s, [])
  else
    let s1 := { s with isLoadingSequences := true, sequences := [] }
    if ctx.psAvail then (s1, [getSequencesCmd ctx.carId])
    else ({ s1 with isLoadingSequences := false }, [])

/-- The `Car/LoadById` branch: on `status === 'OK'` the loaded flag is set
(without comparing the event's `carId` with the currently selected one) and,
when a streaming URL is configured and an instance exists, a
`SetCloudflareURL` command is scheduled after 100 ms. -/
def ueCarLoadById (ctx : Ctx) (s : WorkflowState) (e : UEResponseEvent) :
    WorkflowState × List (Nat × Command) :=
  if e.status = some "OK" then
    ({ s with isCarLoaded := true },
     match jsStr ctx.webSocketUrl with
     | some url => if ctx.psAvail then [(100, setCloudflareURLCmd url ctx.carId)] else []
     | none => [])
  else (s, [])

/-- The `Environment/ChangeBackground` branch: on success in video mode the
sequences, the selection queue and the playing flag are cleared, and
sequence discovery is re-triggered after 500 ms. -/
def ueChangeBackground (ctx : Ctx) (s : WorkflowState) (e : UEResponseEvent) :
    WorkflowState × List (Nat × Command) :=
  if e.status = some "OK" ∧ ctx.mode = .video then
    let s1 := { s with sequences := [], selectedSequences := [], isPlaying := false }
    let r := loadSequencesForCurrentLevel ctx s1
    (r.1, r.2.map (fun c => (500, c)))
  else (s, [])

/-- The `Environment/ChangeDayNight` branch. -/
def ueChangeDayNight (s : WorkflowState) (e : UEResponseEvent) : WorkflowState :=
  if e.status = some "OK" then
    match e.isDay with
    | some b => { s with isDayMode := b }
    | none => s
  else s

/-- URL extraction of the screenshot branches: a string `data` is the URL
itself, otherwise `(event.data as {url}).url || ''`. -/
def screenshotUrlOf : Option UEData → String
  | some (.str raw _) => raw
  | some (.val (.obj o)) => (jsOr o.fields.url (some "")).getD ""
  | some (.val (.arr _)) => ""
  | none => ""

/-- The `System/TakeScreenshot` / `TakeScreenshotNoBackground` branches:
on success with a truthy payload and a non-empty URL a new screenshot is
prepended; `tag` is the id's distinguishing head (`screenshot-` or
`screenshot-nobg-`). -/
def ueTakeScreenshot (tag : String) (s : WorkflowState) (e : UEResponseEvent)
    (now : Nat) : WorkflowState :=
  if e.status = some "OK" ∧ dataTruthy e.data then
    let url := screenshotUrlOf e.data
    if url ≠ "" then
      { s with screenshots := ⟨tag ++ toString now, url, now⟩ :: s.screenshots }
    else s
  else s

/-- The `Sequence/GetSequences` branch: the loading flag is always dropped;
a non-OK status or an unparseable string payload clears the list; otherwise
the probe chain feeds `normalizeSeq` (an empty probe result also clears the
list). -/
def ueGetSequences (s : WorkflowState) (e : UEResponseEvent) : WorkflowState :=
  let s0 := { s with isLoadingSequences := false }
  if e.status = some "OK" then
    match e.data with
    | some (.str _ none) => { s0 with sequences := [] }
    | _ =>
      let sequencesData := pickSequencesData e (parsedOf e.data)
      if sequencesData.length > 0 then
        { s0 with sequences := sequencesData.map normalizeSeq }
      else { s0 with sequences := [] }
  else { s0 with sequences := [] }

/-- The `Render/RenderStarted` branch (no truthiness guard on the payload):
missing identifiers are fabricated. -/
def ueRenderStarted (s : WorkflowState) (e : UEResponseEvent) (now : Nat) :
    WorkflowState :=
  let wv := parseStep e.data
  let job : RenderJob :=
    { id := (jsOr (wvJobId wv) (some ("render-" ++ toString now))).getD ""
      sequenceId := (jsOr (wvSequenceId wv) (some "unknown")).getD ""
      status := .rendering
      progress := 0 }
  { s with renderJob := some job }

/-- The `Render/RenderProgress` branch: a truthy payload updates the job,
inheriting `jobId`/`sequenceId` from the tracked job when omitted and
fabricating them when no job is tracked. -/
def ueRenderProgress (s : WorkflowState) (e : UEResponseEvent) (now : Nat) :
    WorkflowState :=
  let wv := parseStep e.data
  if wvTruthy wv then
    let job : RenderJob :=
      { id := (jsOr (wvJobId wv) (jsOr (s.renderJob.map (·.id))
          (some ("render-" ++ toString now)))).getD ""
        sequenceId := (jsOr (wvSequenceId wv) (jsOr (s.renderJob.map (·.sequenceId))
          (some "unknown"))).getD ""
        status := .rendering
        progress := (jsOrNat (wvProgress wv) (some 0)).getD 0 }
    { s with renderJob := some job }
  else s

/-- `finalDownloadUrl` resolution of the `RenderComplete` branch. -/
def finalDownloadUrlOf (wv : WorkVal) : Option String :=
  match wvDownloadUrl wv with
  | some (.strU v) => some v
  | some (.objU u) => u
  | none => none

/-- The `Render/RenderComplete` branch. -/
def ueRenderComplete (s : WorkflowState) (e : UEResponseEvent) (now : Nat) :
    WorkflowState :=
  let wv := parseStep e.data
  if wvTruthy wv then
    let job : RenderJob :=
      { id := (jsOr (wvJobId wv) (jsOr (s.renderJob.map (·.id))
          (some ("render-" ++ toString now)))).getD ""
        sequenceId := (jsOr (wvSequenceId wv) (jsOr (s.renderJob.map (·.sequenceId))
          (some "unknown"))).getD ""
        status := .complete
        progress := 100
        downloadUrl := finalDownloadUrlOf wv }
    { s with renderJob := some job }
  else s

/-- The `Render/RenderFailed` branch: `jobId = parsedData?.jobId ||
renderJob?.id`; the update only happens when a job is tracked or that id is
truthy. -/
def ueRenderFailed (s : WorkflowState) (e : UEResponseEvent) (now : Nat) :
    WorkflowState :=
  let wv := parseStep e.data
  let jobId := jsOr (wvJobId wv) (s.renderJob.map (·.id))
  if s.renderJob.isSome ∨ (jsStr jobId).isSome then
    let job : RenderJob :=
      { id := (jsOr jobId (jsOr (s.renderJob.map (·.id))
          (some ("render-" ++ toString now)))).getD ""
        sequenceId := (jsOr (s.renderJob.map (·.sequenceId)) (some "unknown")).getD ""
        status := .failed
        progress := (jsOrNat (s.renderJob.map (·.progress)) (some 0)).getD 0
        errorMessage := some ((jsOr (wvErrorMessage wv)
          (some "Unknown error")).getD "") }
    { s with renderJob := some job }
  else s

/-- The `Render/RenderCancelled` branch: like `RenderFailed` but with the
fixed message `'Render cancelled by user'`. -/
def ueRenderCancelled (s : WorkflowState) (e : UEResponseEvent) (now : Nat) :
    WorkflowState :=
  let wv := parseStep e.data
  let jobId := jsOr (wvJobId wv) (s.renderJob.map (·.id))
  if s.renderJob.isSome ∨ (jsStr jobId).isSome then
    let job : RenderJob :=
      { id := (jsOr jobId (jsOr (s.renderJob.map (·.id))
          (some ("render-" ++ toString now)))).getD ""
        sequenceId := (jsOr (s.renderJob.map (·.sequenceId)) (some "unknown")).getD ""
        status := .failed
        progress := (jsOrNat (s.renderJob.map (·.progress)) (some 0)).getD 0
        errorMessage := some "Render cancelled by user" }
    { s with renderJob := some job }
  else s

/-- `handleUEResponse`: dispatch on the envelope's `(type, action)` pair;
unmatched pairs are silently ignored.  `now` models `Date.now()`. -/
def handleUEResponse (ctx : Ctx) (s : WorkflowState) (e : UEResponseEvent)
    (now : Nat) : WorkflowState × List (Nat × Command) :=
  match e.type, e.action with
  | some "Car", some "LoadById" => ueCarLoadById ctx s e
  | some "Car", some "SetColor" => (s, [])
  | some "Car", some "SetWheel" => (s, [])
  | some "Environment", some "ChangeBackground" => ueChangeBackground ctx s e
  | some "Environment", some "ChangeDayNight" => (ueChangeDayNight s e, [])
  | some "System", some "TakeScreenshot" => (ueTakeScreenshot "screenshot-" s e now, [])
  | some "System", some "TakeScreenshotNoBackground" =>
    (ueTakeScreenshot "screenshot-nobg-" s e now, [])
  | some "Sequence", some "GetSequences" => (ueGetSequences s e, [])
  | some "Sequence", some "PlaySequence" =>
    if e.status = some "OK" then ({ s with isPlaying := true }, [])
    else ({ s with isPlaying := false }, [])
  | some "Sequence", some "StopSequence" =>
    if e.status = some "OK" then ({ s with isPlaying := false }, []) else (s, [])
  | some "Sequence", some "SequenceFinished" => ({ s with isPlaying := false }, [])
  | some "Render", some "RenderStarted" => (ueRenderStarted s e now, [])
  | some "Render", some "RenderProgress" => (ueRenderProgress s e now, [])
  | some "Render", some "RenderComplete" => (ueRenderComplete s e now, [])
  | some "Render", some "RenderFailed" => (ueRenderFailed s e now, [])
  | some "Render", some "RenderCancelled" => (ueRenderCancelled s e now, [])
  | _, _ => (s, [])

/-- The `Info` response listener: `JSON.parse` the message (`none` models a
parse failure, which is logged and dropped) and call `handleUEResponse` only
when `event.ns === 'Configurator'`. -/
def onInfoMessage (ctx : Ctx) (s : WorkflowState) (parsed : Option UEResponseEvent)
    (now : Nat) : WorkflowState × List (Nat × Command) :=
  match parsed with
  | none => (s, [])
  | some e =>
    if e.ns = some "Configurator" then handleUEResponse ctx s e now else (s, [])

/-- The `carId`-change effect (`useEffect(() => setIsCarLoaded(false),
[carId])`). -/
def carIdChangeReset (s : WorkflowState) : WorkflowState :=
  { s with isCarLoaded := false }

/-! ## Selection-queue and render handlers -/

/-- `handleToggleSequence`: remove the id when present, append it when
absent. -/
def handleToggleSequence (prev : List String) (sequenceId : String) : List String :=
  if prev.contains sequenceId then prev.filter (· ≠ sequenceId)
  else prev ++ [sequenceId]

/-- `handleReorderSequence`: `splice(fromIndex, 1)` the moved element out and
`splice(toIndex, 0, moved)` it back in.  For an in-range `fromIndex` this is
erase-then-insert; `min` reproduces splice's clamping of an insertion index
past the end.  (An out-of-range `fromIndex` would make JavaScript insert
`undefined`, which a `List String` cannot hold; the claims only concern
valid indices.) -/
def handleReorderSequence (prev : List String) (fromIndex toIndex : Nat) :
    List String :=
  match prev[fromIndex]? with
  | some moved =>
    let rest := prev.eraseIdx fromIndex
    rest.insertIdx (min toIndex rest.length) moved
  | none => prev.eraseIdx fromIndex

/-- `handleRenderSequence`: guarded by readiness, a non-empty selection and
no job already rendering; when playing, a stop command is emitted first and
the render command is deferred by 200 ms (0 ms otherwise); the new job is
tracked optimistically as `rendering`. -/
def handleRenderSequence (isReady psAvail : Bool) (s : WorkflowState) (now : Nat) :
    WorkflowState × List (Nat × Command) :=
  if ¬isReady ∨ s.selectedSequences.length = 0 ∨
      s.renderJob.map (·.status) = some .rendering then (s, [])
  else if ¬psAvail then (s, [])
  else
    let stopCmds : List (Nat × Command) :=
      if s.isPlaying then [(0, stopSequenceCmd)] else []
    let s1 := if s.isPlaying then { s with isPlaying := false } else s
    let delay : Nat := if s.isPlaying then 200 else 0
    let job : RenderJob :=
      { id := "render-" ++ toString now
        sequenceId := String.intercalate "," s.selectedSequences
        status := .rendering
        progress := 0 }
    ({ s1 with renderJob := some job },
     stopCmds ++ [(delay, renderSequenceListCmd s.selectedSequences)])

/-- `handleCancelRender`: a no-op unless ready, a job is tracked and its
status is `rendering` (and an instance exists); otherwise it emits
`Render/CancelRender` with a JSON-encoded *string* payload and optimistically
flips the job to `failed`. -/
def handleCancelRender (isReady psAvail : Bool) (rj : Option RenderJob) :
    Option RenderJob × List (Nat × Command) :=
  match rj with
  | none => (rj, [])
  | some j =>
    if ¬isReady ∨ j.status ≠ .rendering then (rj, [])
    else if ¬psAvail then (rj, [])
    else
      (some { j with status := .failed
                     errorMessage := some "Render cancelled by user" },
       [(0, cancelRenderCmd j.id)])

/-! ## Concrete fixtures used by individual claims -/

/-- The raw sequence object of claim C3's concrete example. -/
def rawA : RawSeq :=
  { SequenceId := some "a", DisplayName := some "A", Category := some "Interior"
    Duration := some 5 }

/-- A discovery response whose `data` is a JSON-encoded string containing
one sequence under the uppercase schema (claim C3). -/
def discoveryEventC3 : UEResponseEvent :=
  { ns := some "Configurator", type := some "Sequence", action := some "GetSequences"
    status := some "OK"
    data := some (.str "raw" (some (.obj { sequences := some [rawA] }))) }

/-- A late `Car/LoadById` confirmation still carrying the previous car id
(claim C2). -/
def staleLoadedEvent : UEResponseEvent :=
  { ns := some "Configurator", type := some "Car", action := some "LoadById"
    status := some "OK", carId := some "car1" }

/-- A `Render/RenderProgress` envelope whose structured payload is the given
object (claim C7). -/
def renderProgressEvent (o : RawSeq) : UEResponseEvent :=
  { ns := some "Configurator", type := some "Render", action := some "RenderProgress"
    data := some (.val (.obj { fields := o })) }

/-- A tracked render job mid-render (claim C6's witness). -/
def jobW : RenderJob :=
  { id := "j1", sequenceId := "s", status := .rendering, progress := 42 }

/-- A fully connected registry state (claim C10's witness). -/
def connectedBusState : PSBusState :=
  { globalPixelStreaming := some 1, isWebSocketConnected := true
    isVideoStreamActive := true }

/-! ## Shared helper lemmas -/

/-- Filtering out an element that is not in the list leaves it unchanged. -/
theorem filter_ne_of_not_mem (l : List String) (a : String) (h : a ∉ l) :
    l.filter (· ≠ a) = l := by
  apply List.filter_eq_self.mpr
  intro b hb
  simp only [decide_eq_true_iff]
  intro hba
  exact h (hba ▸ hb)

/-- Reinserting the element previously erased at an in-range index restores
the list. -/
theorem insertIdx_getElem_eraseIdx (l : List String) (i : Nat) (h : i < l.length) :
    (l.eraseIdx i).insertIdx i l[i] = l := by
  induction l generalizing i with
  | nil => simp at h
  | cons a t ih =>
    cases i with
    | zero => simp [List.eraseIdx]
    | succ n =>
      have hn : n < t.length := by simpa using h
      simp only [List.eraseIdx, List.getElem_cons_succ, List.insertIdx_succ_cons]
      rw [ih n hn]

/-- The connectivity flag stays down across any run of transport events that
does not contain `webRtcConnected`. -/
theorem applyPSEvents_ws_false (evs : List PSEvent) (st : PSBusState)
    (h : PSEvent.webRtcConnected ∉ evs) (hws : st.isWebSocketConnected = false) :
    (applyPSEvents evs st).isWebSocketConnected = false := by
  induction evs generalizing st with
  | nil => simpa [applyPSEvents]
  | cons e t ih =>
    have he : e ≠ PSEvent.webRtcConnected := fun hcon => h (hcon ▸ List.mem_cons_self e t)
    have ht : PSEvent.webRtcConnected ∉ t := fun hcon => h (List.mem_cons_of_mem e hcon)
    show (applyPSEvents t (applyPSEvent st e)).isWebSocketConnected = false
    apply ih _ ht
    cases e with
    | webRtcConnected => exact absurd rfl he
    | webRtcDisconnected => simp [applyPSEvent]
    | videoInitialized => simpa [applyPSEvent]
    | videoEncoderAvgQP => simpa [applyPSEvent]

/-- Dispatch equation: an envelope typed `Render/RenderProgress` is routed to
the progress branch, which emits no commands. -/
theorem handleUEResponse_progress (ctx : Ctx) (s : WorkflowState) (e : UEResponseEvent)
    (now : Nat) (ht : e.type = some "Render") (ha : e.action = some "RenderProgress") :
    handleUEResponse ctx s e now = (ueRenderProgress s e now, []) := by
  unfold handleUEResponse
  rw [ht, ha]
  rfl

/-! ## Claims -/

/-- Claim C1: an inbound Info message whose parsed envelope has `ns` not
equal to `"Configurator"` (a missing `ns` included) changes no workflow
state — the whole state, so the car-loaded flag, the color and wheel
selections, background and day/night state, screenshots, sequences, the
selection queue, `isPlaying` and the tracked render job are all identical —
and emits no commands. -/
theorem infoListener_ignores_foreign_namespace (ctx : Ctx) (s : WorkflowState)
    (e : UEResponseEvent) (now : Nat) (h : e.ns ≠ some "Configurator") :
    onInfoMessage ctx s (some e) now = (s, []) := by
  simp [onInfoMessage, h]

/-- Witness for C1: a concrete `Info` envelope with `ns = "Other"` leaves a
concrete workflow state untouched. -/
theorem infoListener_ignores_foreign_namespace_witness :
    onInfoMessage { carId := "car1" } {}
      (some { ns := some "Other", type := some "Car", action := some "LoadById"
              status := some "OK" }) 0 = ({}, []) :=
  infoListener_ignores_foreign_namespace _ _ _ _ (by decide)

/-- Claim C2 (the second half fails on the code): changing the selected car
id does reset the loaded flag, but the `Car/LoadById` branch never compares
the response's `carId` with the selected one, so processing a late-arriving
`OK` confirmation carrying the previous car id (`"car1"`) while `"car2"` is
selected sets `isCarLoaded` back to `true` — marking the new car as
loaded. -/
theorem staleCarLoadConfirmation_marks_new_car_loaded :
    (∀ s : WorkflowState, (carIdChangeReset s).isCarLoaded = false) ∧
    ((handleUEResponse { carId := "car2", isReady := true, psAvail := true }
        (carIdChangeReset {}) staleLoadedEvent 5).1.isCarLoaded = true) :=
  ⟨fun _ => rfl, by decide⟩

/-- Counterexample for C3: for the raw object `{id: "x"}` — which has no
display-name field — the normalized id is `"x"` but the normalized name is
the literal `"Unnamed Sequence"`, not the id: the name does not default to
the (normalized) id. -/
theorem normalizeSeq_name_default_counterexample :
    (normalizeSeq { id := some "x" }).id = "x" ∧
    (normalizeSeq { id := some "x" }).name = "Unnamed Sequence" ∧
    (normalizeSeq { id := some "x" }).name ≠ (normalizeSeq { id := some "x" }).id :=
  ⟨rfl, rfl, by decide⟩

/-- Claim C3 as amended: each raw sequence object is normalized with fixed
priority — id is the first present (truthy) of `sequenceId`, `id`,
`SequenceId`, defaulting to `"unknown"`; category defaults to `"Exterior"`;
duration defaults to `10`; and name, when no display-name field is present,
defaults to the raw `sequenceId` field and to the literal
`"Unnamed Sequence"` when that too is absent (not to the normalized id).
The concrete discovery response whose `data` is the JSON-encoded string
containing `{sequences: [{SequenceId: "a", DisplayName: "A", Category:
"Interior", Duration: 5}]}` normalizes to exactly
`[{id: "a", name: "A", category: "Interior", duration: 5}]`. -/
theorem normalizeSeq_fixed_priority_normalization :
    ((ueGetSequences {} discoveryEventC3).sequences =
      [{ id := "a", name := "A", category := "Interior", duration := 5 }]) ∧
    (∀ r : RawSeq, r.sequenceId = none → r.id = none → r.SequenceId = none →
      (normalizeSeq r).id = "unknown") ∧
    (∀ (r : RawSeq) (a : String), a ≠ "" → r.sequenceId = some a →
      (normalizeSeq r).id = a) ∧
    (∀ (r : RawSeq) (a : String), a ≠ "" → r.sequenceId = none → r.id = some a →
      (normalizeSeq r).id = a) ∧
    (∀ (r : RawSeq) (a : String), a ≠ "" → r.sequenceId = none → r.id = none →
      r.SequenceId = some a → (normalizeSeq r).id = a) ∧
    (∀ r : RawSeq, r.category = none → r.Category = none →
      (normalizeSeq r).category = "Exterior") ∧
    (∀ r : RawSeq, r.duration = none → r.Duration = none →
      (normalizeSeq r).duration = 10) ∧
    (∀ (r : RawSeq) (a : String), a ≠ "" → r.displayName = none → r.name = none →
      r.DisplayName = none → r.sequenceId = some a → (normalizeSeq r).name = a) ∧
    (∀ r : RawSeq, r.displayName = none → r.name = none → r.DisplayName = none →
      r.sequenceId = none → (normalizeSeq r).name = "Unnamed Sequence") := by
  refine ⟨by decide, ?_, ?_, ?_, ?_, ?_, ?_, ?_, ?_⟩
  · intro r h1 h2 h3; simp [normalizeSeq, jsOr, h1, h2, h3]
  · intro r a ha h1; simp [normalizeSeq, jsOr, h1, ha]
  · intro r a ha h1 h2; simp [normalizeSeq, jsOr, h1, h2, ha]
  · intro r a ha h1 h2 h3; simp [normalizeSeq, jsOr, h1, h2, h3, ha]
  · intro r h1 h2; simp [normalizeSeq, jsOr, h1, h2]
  · intro r h1 h2; simp [normalizeSeq, jsOrNat, h1, h2]
  · intro r a ha h1 h2 h3 h4; simp [normalizeSeq, jsOr, h1, h2, h3, h4, ha]
  · intro r h1 h2 h3 h4; simp [normalizeSeq, jsOr, h1, h2, h3, h4]

/-- Witness for C3: a raw object whose only identifying field is
`SequenceId = "b"` normalizes to the id `"b"`. -/
theorem normalizeSeq_fixed_priority_normalization_witness :
    (normalizeSeq { SequenceId := some "b" }).id = "b" :=
  normalizeSeq_fixed_priority_normalization.2.2.2.2.1
    { SequenceId := some "b" } "b" (by decide) rfl rfl rfl

/-- Claim C4: when the render-request handler runs with `isPlaying` true,
the connection ready, a non-empty selection and no job already rendering,
its command emissions are exactly the `Sequence/StopSequence` command
followed (after the 200 ms deferral) by the render command — the render
command is never sent before the stop command within the call, the list
being in execution order. -/
theorem renderSequence_stop_precedes_render (s : WorkflowState) (now : Nat)
    (h1 : s.selectedSequences ≠ [])
    (h2 : s.renderJob.map (·.status) ≠ some .rendering)
    (h3 : s.isPlaying = true) :
    (handleRenderSequence true true s now).2 =
      [(0, stopSequenceCmd), (200, renderSequenceListCmd s.selectedSequences)] := by
  have hlen : ¬s.selectedSequences.length = 0 := by
    simpa [List.length_eq_zero] using h1
  simp [handleRenderSequence, hlen, h2, h3]

/-- Witness for C4: a concrete playing state with one selected sequence. -/
theorem renderSequence_stop_precedes_render_witness :
    (handleRenderSequence true true
        { selectedSequences := ["s1"], isPlaying := true } 7).2 =
      [(0, stopSequenceCmd), (200, renderSequenceListCmd ["s1"])] :=
  renderSequence_stop_precedes_render _ 7 (by decide) (by decide) rfl

/-- Claim C5: registering a non-null handle different from the currently
held one performs exactly one disconnect attempt, on the old handle, before
the new handle is installed; whether the disconnect throws is recorded but
swallowed — the resulting state installs the new handle either way. -/
theorem registerPS_disconnects_old_handle_once (st : PSBusState) (old nw : Nat)
    (threw : Bool) (hold : st.globalPixelStreaming = some old) (hne : old ≠ nw) :
    registerPS st (some nw) threw =
      ({ globalPixelStreaming := some nw, isWebSocketConnected := false
         isVideoStreamActive := false },
       [.disconnectAttempt old threw, .installed (some nw), .listenersAttached nw]) := by
  have h2 : (some old ≠ some nw) := by simpa using hne
  simp [registerPS, hold, h2]

/-- Witness for C5: replacing handle `1` with handle `2` while the
disconnect throws still installs handle `2` after exactly one disconnect
attempt on handle `1`. -/
theorem registerPS_disconnects_old_handle_once_witness :
    registerPS { globalPixelStreaming := some 1, isWebSocketConnected := true
                 isVideoStreamActive := true } (some 2) true =
      ({ globalPixelStreaming := some 2, isWebSocketConnected := false
         isVideoStreamActive := false },
       [.disconnectAttempt 1 true, .installed (some 2), .listenersAttached 2]) :=
  registerPS_disconnects_old_handle_once _ 1 2 true rfl (by decide)

/-- Claim C6: the render-cancel handler is a no-op when not ready, when no
job is tracked, or when the tracked job's status is not `rendering`; when it
applies it emits exactly one `Render/CancelRender` command whose `data` is
the JSON-encoded *string* carrying the job id (not a structured object) and
in the same call optimistically flips the tracked job to `failed` with the
cancellation message, without waiting for any confirmation. -/
theorem cancelRender_guard_and_string_payload (ready psAvail : Bool)
    (rj : Option RenderJob) (j : RenderJob) :
    (ready = false → handleCancelRender ready psAvail rj = (rj, [])) ∧
    (rj = none → handleCancelRender ready psAvail rj = (rj, [])) ∧
    (rj = some j → j.status ≠ .rendering →
      handleCancelRender ready psAvail rj = (rj, [])) ∧
    (rj = some j → j.status = .rendering → ready = true → psAvail = true →
      handleCancelRender ready psAvail rj =
        (some { j with status := .failed
                       errorMessage := some "Render cancelled by user" },
         [(0, cancelRenderCmd j.id)]) ∧
      (cancelRenderCmd j.id).data = some (.strD (jobIdJsonText j.id))) := by
  refine ⟨?_, ?_, ?_, ?_⟩
  · rintro rfl
    cases rj with
    | none => rfl
    | some x => simp [handleCancelRender]
  · rintro rfl; rfl
  · rintro rfl hst
    simp [handleCancelRender, hst]
  · rintro rfl hst rfl rfl
    refine ⟨?_, rfl⟩
    simp [handleCancelRender, hst]

/-- Witness for C6: cancelling a concrete mid-render job emits the
string-payload cancel command and flips the job to `failed`. -/
theorem cancelRender_guard_and_string_payload_witness :
    handleCancelRender true true (some jobW) =
      (some { jobW with status := .failed
                        errorMessage := some "Render cancelled by user" },
       [(0, cancelRenderCmd jobW.id)]) ∧
    (cancelRenderCmd jobW.id).data = some (.strD (jobIdJsonText jobW.id)) :=
  (cancelRender_guard_and_string_payload true true (some jobW) jobW).2.2.2
    rfl rfl rfl rfl

/-- Claim C7: a `Render/RenderProgress` event whose structured payload omits
`jobId` and/or `sequenceId` inherits the missing field from the currently
tracked render job; when no job is tracked, the updated job gets the
fabricated timestamp-based id `render-<now>` and the sequence id
`"unknown"` instead of the update being dropped. -/
theorem renderProgress_inherits_tracked_job_fields (ctx : Ctx) (s : WorkflowState)
    (o : RawSeq) (now : Nat) (j : RenderJob) :
    (s.renderJob = some j → j.id ≠ "" → o.jobId = none →
      ((handleUEResponse ctx s (renderProgressEvent o) now).1.renderJob).map (·.id) =
        some j.id) ∧
    (s.renderJob = some j → j.sequenceId ≠ "" → o.sequenceId = none →
      ((handleUEResponse ctx s (renderProgressEvent o) now).1.renderJob).map
          (·.sequenceId) = some j.sequenceId) ∧
    (s.renderJob = none → o.jobId = none → o.sequenceId = none →
      ((handleUEResponse ctx s (renderProgressEvent o) now).1.renderJob).map (·.id) =
        some ("render-" ++ toString now) ∧
      ((handleUEResponse ctx s (renderProgressEvent o) now).1.renderJob).map
          (·.sequenceId) = some "unknown") := by
  have hd : handleUEResponse ctx s (renderProgressEvent o) now =
      (ueRenderProgress s (renderProgressEvent o) now, []) :=
    handleUEResponse_progress ctx s _ now rfl rfl
  refine ⟨?_, ?_, ?_⟩
  · intro hrj hid hjob
    rw [hd]
    simp [ueRenderProgress, parseStep, renderProgressEvent, wvTruthy, wvJobId,
      hrj, hjob, jsOr, hid]
  · intro hrj hsid hseq
    rw [hd]
    simp [ueRenderProgress, parseStep, renderProgressEvent, wvTruthy, wvSequenceId,
      hrj, hseq, jsOr, hsid]
  · intro hrj hjob hseq
    rw [hd]
    constructor <;>
      simp [ueRenderProgress, parseStep, renderProgressEvent, wvTruthy, wvJobId,
        wvSequenceId, hrj, hjob, hseq, jsOr]

/-- Witness for C7: a progress event with an empty payload object while no
job is tracked fabricates `render-5` and `"unknown"`. -/
theorem renderProgress_inherits_tracked_job_fields_witness :
    ((handleUEResponse { carId := "car1", isReady := true, psAvail := true } {}
        (renderProgressEvent {}) 5).1.renderJob).map (·.id) =
      some ("render-" ++ toString 5) ∧
    ((handleUEResponse { carId := "car1", isReady := true, psAvail := true } {}
        (renderProgressEvent {}) 5).1.renderJob).map (·.sequenceId) =
      some "unknown" :=
  (renderProgress_inherits_tracked_job_fields
    { carId := "car1", isReady := true, psAvail := true } {} {} 5
    { id := "j", sequenceId := "s", status := .rendering, progress := 0 }).2.2
    rfl rfl rfl

/-- Claim C8: toggling a sequence id twice restores its original
absence/presence — in fact the whole set of queued ids — and for an
initially absent id the exact original list. -/
theorem toggleSequence_double_restores (l : List String) (a : String) :
    (∀ y, y ∈ handleToggleSequence (handleToggleSequence l a) a ↔ y ∈ l) ∧
    (a ∉ l → handleToggleSequence (handleToggleSequence l a) a = l) := by
  by_cases hm : a ∈ l
  · have h1 : handleToggleSequence l a = l.filter (· ≠ a) := by
      simp [handleToggleSequence, hm]
    have hnm : a ∉ l.filter (· ≠ a) := by simp [List.mem_filter]
    have h2 : handleToggleSequence (l.filter (· ≠ a)) a = l.filter (· ≠ a) ++ [a] := by
      simp [handleToggleSequence, hnm]
    constructor
    · intro y
      rw [h1, h2]
      by_cases hya : y = a
      · subst hya
        simp [hm]
      · simp [List.mem_filter, hya]
    · intro hcon; exact absurd hm hcon
  · have h1 : handleToggleSequence l a = l ++ [a] := by
      simp [handleToggleSequence, hm]
    have hmem : a ∈ l ++ [a] := by simp
    have h2 : handleToggleSequence (l ++ [a]) a = (l ++ [a]).filter (· ≠ a) := by
      simp [handleToggleSequence, hmem]
    have h3 : handleToggleSequence (handleToggleSequence l a) a = l := by
      rw [h1, h2, List.filter_append, filter_ne_of_not_mem l a hm]
      simp
    exact ⟨fun y => by rw [h3], fun _ => h3⟩

/-- Witness for C8: double-toggling the absent id `"b"` on `["a", "c"]`
restores the exact list. -/
theorem toggleSequence_double_restores_witness :
    handleToggleSequence (handleToggleSequence ["a", "c"] "b") "b" = ["a", "c"] :=
  (toggleSequence_double_restores ["a", "c"] "b").2 (by decide)

/-- Claim C9: reordering the selection queue from a valid index `i` to a
valid index `j` and then from `j` back to `i` restores the original queue
exactly. -/
theorem reorderSequence_roundtrip (l : List String) (i j : Nat)
    (hi : i < l.length) (hj : j < l.length) :
    handleReorderSequence (handleReorderSequence l i j) j i = l := by
  have hget : l[i]? = some l[i] := List.getElem?_eq_getElem hi
  have hlenE : (l.eraseIdx i).length = l.length - 1 := by
    rw [List.length_eraseIdx]
    simp [hi]
  have hj' : j ≤ (l.eraseIdx i).length := by omega
  have step1 : handleReorderSequence l i j = (l.eraseIdx i).insertIdx j l[i] := by
    simp only [handleReorderSequence, hget]
    rw [Nat.min_eq_left hj']
  set r := (l.eraseIdx i).insertIdx j l[i] with hr
  have hlenR : r.length = l.length := by
    rw [hr, List.length_insertIdx j _ hj']
    omega
  have hjR : j < r.length := by omega
  have hrj : r[j] = l[i] := List.getElem_insertIdx_self _ _ _ hj'
  have hgetR : r[j]? = some l[i] := by
    rw [List.getElem?_eq_getElem hjR, hrj]
  have hEr : r.eraseIdx j = l.eraseIdx i := List.eraseIdx_insertIdx j _
  have hi' : i ≤ (r.eraseIdx j).length := by rw [hEr]; omega
  have step2 : handleReorderSequence r j i = (r.eraseIdx j).insertIdx i l[i] := by
    simp only [handleReorderSequence, hgetR]
    rw [Nat.min_eq_left hi']
  rw [step1, step2, hEr, insertIdx_getElem_eraseIdx l i hi]

/-- Witness for C9: moving index 1 to index 3 in a four-element queue and
back restores the queue. -/
theorem reorderSequence_roundtrip_witness :
    handleReorderSequence (handleReorderSequence ["a", "b", "c", "d"] 1 3) 3 1 =
      ["a", "b", "c", "d"] :=
  reorderSequence_roundtrip ["a", "b", "c", "d"] 1 3 (by decide) (by decide)

/-- Claim C10: immediately after every `registerPS` call — any previous
state, any handle, the disconnect throwing or not — both connectivity flags
are false, `isPSReady` is false, and it stays false across any subsequent
run of transport events that does not contain `webRtcConnected`: readiness
is never carried over from a previous registration. -/
theorem registerPS_resets_connectivity_flags (st : PSBusState) (ps : Option Nat)
    (threw : Bool) (evs : List PSEvent)
    (h : PSEvent.webRtcConnected ∉ evs) :
    (registerPS st ps threw).1.isWebSocketConnected = false ∧
    (registerPS st ps threw).1.isVideoStreamActive = false ∧
    isPSReady (registerPS st ps threw).1 = false ∧
    isPSReady (applyPSEvents evs (registerPS st ps threw).1) = false := by
  have hws : (registerPS st ps threw).1.isWebSocketConnected = false := by
    cases ps <;> simp [registerPS]
  have hv : (registerPS st ps threw).1.isVideoStreamActive = false := by
    cases ps <;> simp [registerPS]
  refine ⟨hws, hv, ?_, ?_⟩
  · simp [isPSReady, hws]
  · simp [isPSReady, applyPSEvents_ws_false evs _ h hws]

/-- Witness for C10: re-registering over a fully connected registry and
then receiving video events and a disconnect still leaves `isPSReady`
false. -/
theorem registerPS_resets_connectivity_flags_witness :
    (registerPS connectedBusState (some 2) false).1.isWebSocketConnected = false ∧
    (registerPS connectedBusState (some 2) false).1.isVideoStreamActive = false ∧
    isPSReady (registerPS connectedBusState (some 2) false).1 = false ∧
    isPSReady (applyPSEvents [PSEvent.videoInitialized, PSEvent.webRtcDisconnected]
      (registerPS connectedBusState (some 2) false).1) = false :=
  registerPS_resets_connectivity_flags connectedBusState (some 2) false
    [PSEvent.videoInitialized, PSEvent.webRtcDisconnected] (by decide)

end VStudio
